import Mathlib

set_option maxRecDepth 8192

/-!
Verification development for the Commodity Price Forecasting Engine
(src/Backend/market_price_prediction.py, class MarketPricePredictor).

Shallow embedding conventions:
* Prices and all numeric feature values are rationals.  The numpy square
  root used by pandas `.std()` and the `np.sin`/`np.cos` of the cyclical
  day-of-year encoding are deterministic library functions; they are
  carried as fields of an `Env` record of abstract deterministic functions
  so that every definition stays computable.
* A datetime is modelled by its absolute day index (a natural number);
  the calendar accessors (`.year`, `.month`, `.day`, `.timetuple().tm_yday`,
  `.weekday()`) used by the code are deterministic functions of the day and
  are further fields of `Env`.  `quarter` is computed from the month exactly
  as line 323 of the source does.
* The per-call draws of `np.random.normal(0, 0.05)` (confidence jitter) and
  `np.random.uniform` (supply/demand pressure) are made explicit as a
  `Noise` record passed to `predict_price`; a call of the Python function
  corresponds to a call of the embedded function at the noise values the
  random generator happened to produce.
* Fitted sklearn models and scalers are opaque deterministic functions
  (`MLModel.fn`, `Scaler`); the per-candidate test-set R2 values computed by
  `r2_score` are a parameter `score : ModelKind -> Rat` of training, since
  fitting itself is external numerical code.  The selection loop, the
  100-row cut-off, the registry updates, feature construction, confidence,
  factor analysis, recommendation text, forecasting, persistence and the
  database append are embedded faithfully from the source.
* pandas NaN only matters through `dropna()`: a row of the training table
  survives `dropna` exactly when its index is at least 30 (the
  `shift(30)` lag is the last column to become defined), so the number of
  valid rows of a series of length n is n - 30 (truncated subtraction).
  Where a NaN could flow into an arithmetic position that the control flow
  never lets matter (empty-mean fallbacks), the value 0 stands in for it.
-/

/-- Price data row, mirroring the `PriceData` dataclass (source lines 26-35). -/
structure PriceData where
  crop_name : String
  market_name : String
  price : ℚ
  unit : String
  date : ℕ
  quality : String
  source : String
deriving DecidableEq

/-- Result record of one prediction, mirroring the `PricePrediction`
dataclass (source lines 37-45); `factors` keeps the insertion order of the
Python dict built by `_analyze_prediction_factors`. -/
structure PricePrediction where
  crop_name : String
  predicted_price : ℚ
  confidence : ℚ
  prediction_date : ℕ
  factors : List (String × ℚ)
  recommendation : String
deriving DecidableEq

/-- The three candidate regressors of `_train_crop_model`
(source lines 226-230). -/
inductive ModelKind
| random_forest
| gradient_boosting
| linear_regression
deriving DecidableEq

/-- Position of a candidate in the fixed evaluation order of the training
loop (dict insertion order, source lines 226-236). -/
def kindIndex : ModelKind → ℕ
| .random_forest => 0
| .gradient_boosting => 1
| .linear_regression => 2

/-- A fitted model: which candidate it is, plus its (deterministic)
prediction function on a feature vector. -/
structure MLModel where
  kind : ModelKind
  fn : List ℚ → ℚ

/-- A fitted `StandardScaler`: a deterministic transformation of feature
vectors. -/
def Scaler : Type := List ℚ → List ℚ

/-- Deterministic ambient functions: the calendar accessors of `datetime`
and the numerics (`np.sin`/`np.cos` of the scaled day-of-year, the square
root inside pandas `.std()`). -/
structure Env where
  yearOf : ℕ → ℕ
  monthOf : ℕ → ℕ
  dayOf : ℕ → ℕ
  doyOf : ℕ → ℕ
  weekdayOf : ℕ → ℕ
  sinDoy : ℕ → ℚ
  cosDoy : ℕ → ℚ
  sqrtQ : ℚ → ℚ

/-- The random draws one call of `predict_price` consumes:
`np.random.normal(0, 0.05)` in `_calculate_confidence` (line 358) and the
two `np.random.uniform` draws in `_analyze_prediction_factors`
(lines 389-390). -/
structure Noise where
  confNoise : ℚ
  supply : ℚ
  demand : ℚ

/-- In-memory state of a `MarketPricePredictor`: the SQLite `market_prices`
table (`db`), `self.historical_data`, `self.models`, `self.scalers` and
`self.label_encoders`, the maps as association lists keyed by crop name. -/
structure Predictor where
  db : List PriceData
  historical : List (String × List ℚ)
  models : List (String × MLModel)
  scalers : List (String × Scaler)
  label_encoders : List (String × Unit)

/-- Dictionary lookup (`d[k]` / `k in d`). -/
def alookup {β : Type} (k : String) : List (String × β) → Option β
| [] => none
| (k2, v) :: rest => if k = k2 then some v else alookup k rest

/-- Dictionary assignment (`d[k] = v`). -/
def aupdate {β : Type} (k : String) (v : β) : List (String × β) → List (String × β)
| [] => [(k, v)]
| (k2, w) :: rest => if k = k2 then (k, v) :: rest else (k2, w) :: aupdate k v rest

/-- Arithmetic mean of a list (pandas `.mean()`); 0 stands in for the NaN
of an empty mean, which the control flow never consumes. -/
def listMean (xs : List ℚ) : ℚ :=
if xs.length = 0 then 0 else xs.sum / (xs.length : ℚ)

/-- `df.tail(n)`: the last `n` elements. -/
def tailN (n : ℕ) (xs : List ℚ) : List ℚ := xs.drop (xs.length - n)

/-- Negative positional indexing `xs.iloc[-k]` (0 stands in for the
out-of-range error, which the guarded call sites never hit). -/
def ilocNeg (xs : List ℚ) (k : ℕ) : ℚ := xs.getD (xs.length - k) 0

/-- Python `round(x, 2)`: two-decimal rounding (half-way convention is
immaterial to every claim). -/
def round2 (q : ℚ) : ℚ := (⌊q * 100 + 1 / 2⌋ : ℚ) / 100

/-- `price_lag_1` of `_prepare_prediction_features` (source line 330). -/
def price_lag_1 (recent : List ℚ) : ℚ :=
if 0 < recent.length then ilocNeg recent 1 else listMean recent

/-- `price_lag_7` of `_prepare_prediction_features` (source line 331). -/
def price_lag_7 (recent : List ℚ) : ℚ :=
if 7 ≤ recent.length then ilocNeg recent 7 else listMean recent

/-- `price_lag_30` of `_prepare_prediction_features` (source line 332). -/
def price_lag_30 (recent : List ℚ) : ℚ :=
if 30 ≤ recent.length then ilocNeg recent 30 else listMean recent

/-- The triple of lag features the prediction path feeds the model,
computed from the 30-point tail of the stored series exactly as
`_prepare_prediction_features` does (source lines 315, 329-332). -/
def predLagTriple (series : List ℚ) : ℚ × ℚ × ℚ :=
(price_lag_1 (tailN 30 series),
 price_lag_7 (tailN 30 series),
 price_lag_30 (tailN 30 series))

/-- The 13-entry feature vector of `_prepare_prediction_features`
(source lines 312-340), in the exact order of the returned `np.array`. -/
def predFeatures (env : Env) (series : List ℚ) (d : ℕ) : List ℚ :=
[(env.yearOf d : ℚ), (env.monthOf d : ℚ), (env.dayOf d : ℚ),
 (env.doyOf d : ℚ), (env.weekdayOf d : ℚ),
 (((env.monthOf d - 1) / 3 + 1 : ℕ) : ℚ),
 env.sinDoy (env.doyOf d), env.cosDoy (env.doyOf d),
 (predLagTriple series).1, (predLagTriple series).2.1,
 (predLagTriple series).2.2,
 listMean (tailN 7 (tailN 30 series)), listMean (tailN 30 (tailN 30 series))]

/-- The price column shifted by `k` (pandas `shift`), evaluated at row
`i`; meaningful only for `k ≤ i` (earlier rows are NaN and are removed by
`dropna`). -/
def shiftLag (prices : List ℚ) (k i : ℕ) : ℚ := prices.getD (i - k) 0

/-- The rolling mean of the price column with window `w` (pandas
`rolling(window=w).mean()`) at row `i`; meaningful only for `w ≤ i + 1`. -/
def rollMeanAt (prices : List ℚ) (w i : ℕ) : ℚ :=
listMean (tailN w (prices.take (i + 1)))

/-- Row `i` of the training feature table of `_train_crop_model`
(source lines 182-212), in the order of `feature_columns`. -/
def trainRow (env : Env) (prices : List ℚ) (i : ℕ) : List ℚ :=
[(env.yearOf i : ℚ), (env.monthOf i : ℚ), (env.dayOf i : ℚ),
 (env.doyOf i : ℚ), (env.weekdayOf i : ℚ),
 (((env.monthOf i - 1) / 3 + 1 : ℕ) : ℚ),
 env.sinDoy (env.doyOf i), env.cosDoy (env.doyOf i),
 shiftLag prices 1 i, shiftLag prices 7 i, shiftLag prices 30 i,
 rollMeanAt prices 7 i, rollMeanAt prices 30 i]

/-- A training row survives `dropna()` exactly when every lag/rolling
input exists: index at least 30 and inside the series. -/
def rowValid (n i : ℕ) : Prop := 30 ≤ i ∧ i < n

/-- Number of rows of the feature table after `dropna()` for a series of
length `n` (the `len(data)` checked on source line 205). -/
def validRowCount (n : ℕ) : ℕ := n - 30

/-- Which candidates are fitted on the scaled training rows: only the
linear baseline (`model.fit(X_train_scaled, ...)`, source lines 236-242);
the tree models are fitted on the unscaled rows. -/
def fitOnScaled : ModelKind → Bool
| .linear_regression => true
| _ => false

/-- One iteration of the best-model selection loop of `_train_crop_model`
(source lines 236-248): strict improvement replaces the incumbent. -/
def selectStep (score : ModelKind → ℚ) (acc : Option (ModelKind × ℚ))
    (k : ModelKind) : Option (ModelKind × ℚ) :=
match acc with
| none => some (k, score k)
| some (b, s) => if score k > s then some (k, score k) else some (b, s)

/-- The fixed evaluation order of the candidate dict (source lines 226-230). -/
def evalOrder : List ModelKind :=
[.random_forest, .gradient_boosting, .linear_regression]

/-- The complete selection loop: fold of `selectStep` over the fixed
evaluation order, starting from `best_model = None`, `best_score = -inf`. -/
def selectBest (score : ModelKind → ℚ) : Option (ModelKind × ℚ) :=
evalOrder.foldl (selectStep score) none

/-- `_train_crop_model` (source lines 176-257): feature table, `dropna`,
the under-100-rows skip, best-model selection, and the registry updates
`self.models[crop] = best_model`, `self.scalers[crop] = scaler`.  The
fitted candidates (`cands`) and their test-set R2 values (`score`) and the
fitted scaler are produced by external sklearn calls and enter as
parameters; the surrounding `except` that logs and returns corresponds to
the `none` lookup branch. -/
def train_crop_model (p : Predictor) (crop : String)
    (cands : ModelKind → MLModel) (score : ModelKind → ℚ)
    (scaler : Scaler) : Predictor :=
match alookup crop p.historical with
| none => p
| some series =>
  if validRowCount series.length < 100 then p
  else
    match selectBest score with
    | none => p
    | some (k, _s) =>
      { p with models := aupdate crop (cands k) p.models,
               scalers := aupdate crop scaler p.scalers }

/-- Base confidence of `_calculate_confidence` (source lines 348-355),
a step function of the length of the historical series. -/
def baseConfidence (n : ℕ) : ℚ :=
if 1000 < n then 0.85 else if 500 < n then 0.75 else 0.65

/-- `_calculate_confidence` (source lines 342-359): base plus the normal
jitter, clamped into [0.5, 0.95] by `max(0.5, min(0.95, confidence))`. -/
def calcConfidence (n : ℕ) (noise : ℚ) : ℚ :=
max 0.5 (min 0.95 (baseConfidence n + noise))

/-- Seasonal-demand factor of `_analyze_prediction_factors`
(source lines 365-372), bucketed by the month of the target date. -/
def seasonalOf (env : Env) (d : ℕ) : ℚ :=
let month := env.monthOf d
if month = 6 ∨ month = 7 ∨ month = 8 ∨ month = 9 ∨ month = 10 then 0.8
else if month = 11 ∨ month = 12 ∨ month = 1 ∨ month = 2 then 1.2
else 1.0

/-- Price-trend factor (source lines 374-380): relative change across the
trailing 30-observation window. -/
def trendOf (series : List ℚ) : ℚ :=
let recent := tailN 30 series
if 1 < recent.length then
  (ilocNeg recent 1 - recent.headD 0) / recent.headD 0
else 0

/-- Sample variance with denominator n-1 (the square inside pandas
`.std()`); 0 stands in for the NaN of fewer than two points, which makes
every downstream comparison take the same branch NaN would. -/
def sampleVar (xs : List ℚ) : ℚ :=
if 2 ≤ xs.length then
  ((xs.map fun x => (x - listMean xs) ^ 2).sum) / ((xs.length : ℚ) - 1)
else 0

/-- Market-volatility factor (source lines 382-386): coefficient of
variation of the trailing 30-observation window. -/
def volatilityOf (env : Env) (series : List ℚ) : ℚ :=
let recent := tailN 30 series
if 0 < listMean recent then env.sqrtQ (sampleVar recent) / listMean recent
else 0

/-- `_analyze_prediction_factors` (source lines 361-392), in dict
insertion order; the last two entries are the per-call uniform draws. -/
def analyzeFactors (env : Env) (series : List ℚ) (d : ℕ) (noise : Noise) :
    List (String × ℚ) :=
[("seasonal_demand", seasonalOf env d),
 ("price_trend", trendOf series),
 ("market_volatility", volatilityOf env series),
 ("supply_pressure", noise.supply),
 ("demand_pressure", noise.demand)]

/-- `_generate_price_recommendation` (source lines 394-418): rule
composition over the trend, seasonal and volatility factors, joined by
a pipe separator. -/
def generateRecommendation (trend seasonal vol : ℚ) : String :=
let r1 : List String :=
  if 0.1 < trend then ["Prices are trending upward - consider holding your produce"]
  else if trend < -0.1 then ["Prices are declining - consider selling soon"]
  else ["Prices are stable - monitor market conditions"]
let r2 : List String :=
  if 1.1 < seasonal then ["High seasonal demand expected - good time to sell"]
  else if seasonal < 0.9 then ["Low seasonal demand - consider storing if possible"]
  else []
let r3 : List String :=
  if 0.2 < vol then ["High market volatility - consider selling in smaller batches"]
  else ["Stable market conditions - normal selling strategy recommended"]
String.intercalate (" | ") (r1 ++ r2 ++ r3)

/-- Typed errors of the prediction path: the `ValueError` of source
line 275 (spec name `ModelUnavailable`) and the `KeyError`s a missing
series or scaler would raise. -/
inductive PredErr
| modelUnavailable
| unknownCommodity
| scalerMissing
deriving DecidableEq

/-- `predict_price` (source lines 259-310): model-availability check,
feature construction from the stored series, scaling of the feature
vector (line 285, unconditionally), model invocation, confidence, factor
analysis and recommendation. -/
def predict_price (env : Env) (p : Predictor) (crop : String) (d : ℕ)
    (noise : Noise) : Except PredErr PricePrediction :=
match alookup crop p.models with
| none => .error .modelUnavailable
| some model =>
  match alookup crop p.historical with
  | none => .error .unknownCommodity
  | some series =>
    match alookup crop p.scalers with
    | none => .error .scalerMissing
    | some scaler =>
      .ok { crop_name := crop,
            predicted_price :=
              round2 (model.fn (scaler (predFeatures env series d))),
            confidence := calcConfidence series.length noise.confNoise,
            prediction_date := d,
            factors := analyzeFactors env series d noise,
            recommendation :=
              generateRecommendation (trendOf series) (seasonalOf env d)
                (volatilityOf env series) }

/-- `get_price_forecast` (source lines 519-537): one prediction per day
offset 1..days, each at date now plus the offset; `noises i` is the
randomness the i-th call consumes. -/
def get_price_forecast (env : Env) (p : Predictor) (crop : String)
    (days : ℕ) (now : ℕ) (noises : ℕ → Noise) :
    List (Except PredErr PricePrediction) :=
(List.range days).map fun i => predict_price env p crop (now + (i + 1)) (noises i)

/-- `add_price_data` (source lines 539-567): inserts one row into the
SQLite `market_prices` table and touches nothing else. -/
def add_price_data (p : Predictor) (pd : PriceData) : Predictor :=
{ p with db := p.db ++ [pd] }

/-- The serialized artifact of `save_models`/`load_models`
(source lines 569-591): a dict that may or may not carry each of the
three expected keys (a schema-mismatched artifact misses some). -/
structure Artifact where
  models : Option (List (String × MLModel))
  scalers : Option (List (String × Scaler))
  label_encoders : Option (List (String × Unit))

/-- `save_models` (source lines 569-580): dumps the three registries. -/
def save_models (p : Predictor) : Artifact :=
{ models := some p.models, scalers := some p.scalers,
  label_encoders := some p.label_encoders }

/-- `load_models` (source lines 582-591): the assignments run in order
`models`, `scalers`, `label_encoders`; the first missing key raises a
`KeyError` that the blanket `except` catches and merely logs, so the
function returns normally with whatever had already been assigned. -/
def load_models (p : Predictor) (a : Artifact) : Predictor :=
match a.models with
| none => p
| some ms =>
  match a.scalers with
  | none => { p with models := ms }
  | some ss =>
    match a.label_encoders with
    | none => { p with models := ms, scalers := ss }
    | some ls => { p with models := ms, scalers := ss, label_encoders := ls }

/-- Equality of prediction results is decidable (needed to evaluate the
concrete counterexamples). -/
instance exceptDecEq {ε α : Type} [DecidableEq ε] [DecidableEq α] :
    DecidableEq (Except ε α) := fun a b =>
match a, b with
| .error e, .error f => decidable_of_iff (e = f) (by simp)
| .error _, .ok _ => isFalse (by simp)
| .ok _, .error _ => isFalse (by simp)
| .ok a, .ok b => decidable_of_iff (a = b) (by simp)

/-- The components of a `PricePrediction` computed without consulting the
per-call random draws: everything except the confidence and the two
pressure factors (which are the 4th and 5th factor entries). -/
def deterministicPart (pr : PricePrediction) :
    String × ℚ × ℕ × List (String × ℚ) × String :=
(pr.crop_name, pr.predicted_price, pr.prediction_date,
 pr.factors.take 3, pr.recommendation)

/-! Concrete fixtures used by the witnesses and counterexamples. -/

/-- A concrete deterministic environment. -/
def env0 : Env :=
{ yearOf := fun _ => 2025, monthOf := fun _ => 1, dayOf := fun _ => 1,
  doyOf := fun _ => 1, weekdayOf := fun _ => 0,
  sinDoy := fun _ => 0, cosDoy := fun _ => 1, sqrtQ := fun q => q }

/-- A 31-point daily series whose price on day `t` is `t`. -/
def series31 : List ℚ := (List.range 31).map fun i => (i : ℚ)

/-- A 130-point series: 100 valid feature rows, exactly the training
cut-off. -/
def series130 : List ℚ := List.replicate 130 1

/-- A 40-point series: only 10 valid feature rows, below the cut-off. -/
def series40 : List ℚ := List.replicate 40 1

/-- A concrete fitted model: returns the first feature component. -/
def mHead : MLModel := { kind := .random_forest, fn := fun v => v.headD 0 }

/-- The identity scaler. -/
def scalerId : Scaler := fun v => v

/-- A scaler whose effect on the feature vector is visible: adds one to
every component. -/
def scalerPlus1 : Scaler := fun v => v.map fun x => x + 1

/-- A predictor with a trained model for Rice over `series31`. -/
def pW : Predictor :=
{ db := [], historical := [(("Rice"), series31)],
  models := [(("Rice"), mHead)], scalers := [(("Rice"), scalerId)],
  label_encoders := [] }

/-- An untrained predictor holding a 130-point Rice series. -/
def pTrainW : Predictor :=
{ db := [], historical := [(("Rice"), series130)], models := [],
  scalers := [], label_encoders := [] }

/-- An untrained predictor holding a 40-point Saffron series. -/
def pSkipW : Predictor :=
{ db := [], historical := [(("Saffron"), series40)], models := [],
  scalers := [], label_encoders := [] }

/-- A trained predictor whose scaler visibly changes the features. -/
def pScaledW : Predictor :=
{ db := [], historical := [(("Rice"), series31)],
  models := [(("Rice"), mHead)], scalers := [(("Rice"), scalerPlus1)],
  label_encoders := [] }

/-- A predictor with an empty registry but the same series as `pW`,
standing for the fresh process a saved artifact is loaded into. -/
def pFresh : Predictor :=
{ db := [], historical := [(("Rice"), series31)], models := [],
  scalers := [], label_encoders := [] }

/-- Concrete fitted candidates for the witnesses. -/
def candsW : ModelKind → MLModel := fun k => { kind := k, fn := fun v => v.headD 0 }

/-- Concrete R2 scores with a strict maximum at the boosted model. -/
def scoreW : ModelKind → ℚ
| .random_forest => 0.5
| .gradient_boosting => 0.9
| .linear_regression => 0.7

/-- Concrete R2 scores on which the (unscaled-fit) random forest wins. -/
def scoreTreeBest : ModelKind → ℚ
| .random_forest => 0.9
| .gradient_boosting => 0.5
| .linear_regression => 0.8

/-- The randomness of a call whose normal draw came out 0 and whose
uniform draws came out 1. -/
def noiseA : Noise := { confNoise := 0, supply := 1, demand := 1 }

/-- The randomness of a call whose normal draw came out 1/100. -/
def noiseB : Noise := { confNoise := 1/100, supply := 1, demand := 1 }

/-- A constant noise stream for forecasts. -/
def noisesW : ℕ → Noise := fun _ => noiseA

/-- A schema-mismatched artifact: it carries a `models` entry but no
`scalers` entry. -/
def badArtifact : Artifact :=
{ models := some [(("Rice"), mHead)], scalers := none,
  label_encoders := none }

/-- A working in-memory registry about to receive a corrupt artifact: an
empty models map and a nonempty scalers map. -/
def pRegW : Predictor :=
{ db := [], historical := [], models := [],
  scalers := [(("Rice"), scalerId)], label_encoders := [] }

/-- Validity of a training row is decidable. -/
instance rowValidDec (n i : ℕ) : Decidable (rowValid n i) :=
decidable_of_iff (30 ≤ i ∧ i < n) Iff.rfl

/-! Helper lemmas. -/

/-- Looking up a key right after assigning it returns the assigned value. -/
theorem alookup_aupdate {β : Type} (k : String) (v : β) :
    ∀ l : List (String × β), alookup k (aupdate k v l) = some v := by
  intro l
  induction l with
  | nil => simp [alookup, aupdate]
  | cons hd tl ih =>
    obtain ⟨k2, w⟩ := hd
    by_cases h : k = k2
    · simp [alookup, aupdate, h]
    · simp [alookup, aupdate, h, ih]

/-- Positional access into a dropped list. -/
theorem list_getD_drop {α : Type} (d : α) :
    ∀ (l : List α) (m i : ℕ), (l.drop m).getD i d = l.getD (m + i) d := by
  intro l
  induction l with
  | nil => intro m i; simp
  | cons x xs ih =>
    intro m i
    cases m with
    | zero => simp
    | succ m =>
      rw [show m + 1 + i = (m + i) + 1 by omega]
      simp [ih m i]

/-- The selection loop returns a candidate whose score no candidate
strictly beats, and on ties the earliest-evaluated candidate. -/
theorem selectBest_spec (score : ModelKind → ℚ) :
    ∃ k, selectBest score = some (k, score k) ∧
      (∀ j ∈ evalOrder, score j ≤ score k) ∧
      (∀ j ∈ evalOrder, score j = score k → kindIndex k ≤ kindIndex j) := by
  by_cases h1 : score .random_forest < score .gradient_boosting
  · by_cases h2 : score .gradient_boosting < score .linear_regression
    · refine ⟨.linear_regression, ?_, ?_, ?_⟩
      · simp [selectBest, evalOrder, selectStep, h1, h2]
      · intro j hj
        simp only [evalOrder, List.mem_cons, List.not_mem_nil, or_false] at hj
        rcases hj with rfl | rfl | rfl
        · linarith
        · linarith
        · exact le_refl _
      · intro j hj heq
        simp only [evalOrder, List.mem_cons, List.not_mem_nil, or_false] at hj
        rcases hj with rfl | rfl | rfl
        · exact absurd heq (by intro hc; linarith)
        · exact absurd heq (by intro hc; linarith)
        · exact le_refl _
    · refine ⟨.gradient_boosting, ?_, ?_, ?_⟩
      · simp [selectBest, evalOrder, selectStep, h1, h2]
      · intro j hj
        simp only [evalOrder, List.mem_cons, List.not_mem_nil, or_false] at hj
        rcases hj with rfl | rfl | rfl
        · linarith
        · exact le_refl _
        · linarith
      · intro j hj heq
        simp only [evalOrder, List.mem_cons, List.not_mem_nil, or_false] at hj
        rcases hj with rfl | rfl | rfl
        · exact absurd heq (by intro hc; linarith)
        · exact le_refl _
        · simp [kindIndex]
  · by_cases h2 : score .random_forest < score .linear_regression
    · refine ⟨.linear_regression, ?_, ?_, ?_⟩
      · simp [selectBest, evalOrder, selectStep, h1, h2]
      · intro j hj
        simp only [evalOrder, List.mem_cons, List.not_mem_nil, or_false] at hj
        rcases hj with rfl | rfl | rfl
        · linarith
        · linarith
        · exact le_refl _
      · intro j hj heq
        simp only [evalOrder, List.mem_cons, List.not_mem_nil, or_false] at hj
        rcases hj with rfl | rfl | rfl
        · exact absurd heq (by intro hc; linarith)
        · exact absurd heq (by intro hc; linarith)
        · exact le_refl _
    · refine ⟨.random_forest, ?_, ?_, ?_⟩
      · simp [selectBest, evalOrder, selectStep, h1, h2]
      · intro j hj
        simp only [evalOrder, List.mem_cons, List.not_mem_nil, or_false] at hj
        rcases hj with rfl | rfl | rfl
        · exact le_refl _
        · linarith
        · linarith
      · intro j hj heq
        simp only [evalOrder, List.mem_cons, List.not_mem_nil, or_false] at hj
        rcases hj with rfl | rfl | rfl <;> simp [kindIndex]

/-- On a fully registered commodity the prediction call reduces to the
record built by the source: scaled features into the stored model,
confidence from series length plus jitter, factor list, recommendation. -/
theorem predict_price_eq_ok (env : Env) (p : Predictor) (c : String)
    (d : ℕ) (noise : Noise) (model : MLModel) (series : List ℚ)
    (scaler : Scaler)
    (hm : alookup c p.models = some model)
    (hh : alookup c p.historical = some series)
    (hsc : alookup c p.scalers = some scaler) :
    predict_price env p c d noise
      = .ok { crop_name := c,
              predicted_price :=
                round2 (model.fn (scaler (predFeatures env series d))),
              confidence := calcConfidence series.length noise.confNoise,
              prediction_date := d,
              factors := analyzeFactors env series d noise,
              recommendation := generateRecommendation (trendOf series)
                (seasonalOf env d) (volatilityOf env series) } := by
  simp only [predict_price, hm, hh, hsc]

/-- Predictions on two states sharing the series, model and scaler agree
on every component that consumes no randomness. -/
theorem predict_detPart_congr (env : Env) (p q : Predictor) (c : String)
    (d : ℕ) (n1 n2 : Noise)
    (hm : alookup c q.models = alookup c p.models)
    (hh : q.historical = p.historical)
    (hs : alookup c q.scalers = alookup c p.scalers) :
    (predict_price env q c d n2).map deterministicPart
      = (predict_price env p c d n1).map deterministicPart := by
  unfold predict_price
  rw [hm, hh, hs]
  cases alookup c p.models with
  | none => rfl
  | some model =>
    cases alookup c p.historical with
    | none => rfl
    | some series =>
      cases alookup c p.scalers with
      | none => rfl
      | some scaler => rfl

/-! The claims. -/

/-- Claim C1: for every commodity trained with at least 100 valid feature
rows, the registry entry is the candidate of maximum test-set R2 over the
fixed evaluation order (random forest, gradient boosting, linear
regression): no evaluated candidate has a strictly higher recorded R2,
and on a tie the stored candidate is evaluated no later than the tied
one. -/
theorem C1_registry_stores_max_r2_candidate
    (p : Predictor) (crop : String) (series : List ℚ)
    (cands : ModelKind → MLModel) (score : ModelKind → ℚ) (scaler : Scaler)
    (hs : alookup crop p.historical = some series)
    (hn : 100 ≤ validRowCount series.length) :
    ∃ k, alookup crop (train_crop_model p crop cands score scaler).models
        = some (cands k) ∧
      selectBest score = some (k, score k) ∧
      (∀ j ∈ evalOrder, score j ≤ score k) ∧
      (∀ j ∈ evalOrder, score j = score k → kindIndex k ≤ kindIndex j) := by
  obtain ⟨k, hsel, hmax, hties⟩ := selectBest_spec score
  refine ⟨k, ?_, hsel, hmax, hties⟩
  simp only [train_crop_model, hs]
  rw [if_neg (by omega)]
  simp only [hsel]
  exact alookup_aupdate crop (cands k) p.models

/-- Witness for C1: a 130-point series (exactly 100 valid rows) and
concrete scores peaking at the boosted model. -/
theorem C1_witness :
    ∃ k, alookup ("Rice")
        (train_crop_model pTrainW ("Rice") candsW scoreW scalerId).models
        = some (candsW k) ∧
      selectBest scoreW = some (k, scoreW k) ∧
      (∀ j ∈ evalOrder, scoreW j ≤ scoreW k) ∧
      (∀ j ∈ evalOrder, scoreW j = scoreW k → kindIndex k ≤ kindIndex j) :=
  C1_registry_stores_max_r2_candidate pTrainW ("Rice") series130 candsW
    scoreW scalerId (by rfl) (by decide)

/-- Claim C2: with fewer than 100 valid feature rows, training returns
the predictor unchanged (no registry entry of any commodity is modified),
the commodity stays absent from the model registry, and predicting it
fails with the model-unavailable error. -/
theorem C2_insufficient_rows_skips_training
    (env : Env) (p : Predictor) (crop : String) (series : List ℚ)
    (cands : ModelKind → MLModel) (score : ModelKind → ℚ) (scaler : Scaler)
    (d : ℕ) (noise : Noise)
    (hs : alookup crop p.historical = some series)
    (hn : validRowCount series.length < 100)
    (habs : alookup crop p.models = none) :
    train_crop_model p crop cands score scaler = p ∧
    alookup crop (train_crop_model p crop cands score scaler).models = none ∧
    predict_price env (train_crop_model p crop cands score scaler) crop d noise
      = .error .modelUnavailable := by
  have htr : train_crop_model p crop cands score scaler = p := by
    simp only [train_crop_model, hs]
    rw [if_pos hn]
  refine ⟨htr, ?_, ?_⟩
  · rw [htr]; exact habs
  · rw [htr]
    simp only [predict_price, habs]

/-- Witness for C2: a 40-point Saffron series (10 valid rows). -/
theorem C2_witness :
    train_crop_model pSkipW ("Saffron") candsW scoreW scalerId = pSkipW ∧
    alookup ("Saffron")
      (train_crop_model pSkipW ("Saffron") candsW scoreW scalerId).models
      = none ∧
    predict_price env0
      (train_crop_model pSkipW ("Saffron") candsW scoreW scalerId)
      ("Saffron") 5 noiseA = .error .modelUnavailable :=
  C2_insufficient_rows_skips_training env0 pSkipW ("Saffron") series40
    candsW scoreW scalerId 5 noiseA (by rfl) (by decide) (by rfl)

/-- Claim C3 is false as stated: the confidence adds a fresh normal draw
on every call, so two predict calls on the same unchanged series, model
and scaler can return different PricePredictions — here the draws 0 and
1/100 give confidences 13/20 and 33/50 for the same commodity and date. -/
theorem C3_counterexample_randomness :
    predict_price env0 pW ("Rice") 5 noiseA
      ≠ predict_price env0 pW ("Rice") 5 noiseB := by
  intro hcontra
  rw [predict_price_eq_ok env0 pW ("Rice") 5 noiseA mHead series31 scalerId
        rfl rfl rfl,
      predict_price_eq_ok env0 pW ("Rice") 5 noiseB mHead series31 scalerId
        rfl rfl rfl] at hcontra
  have h4 := congrArg PricePrediction.confidence (Except.ok.inj hcontra)
  have hlen : series31.length = 31 := rfl
  simp only [hlen, noiseA, noiseB] at h4
  norm_num [calcConfidence, baseConfidence, max_def, min_def] at h4

/-- Claim C3 amended: with the series, model and scaler unchanged, two
predict calls agree on the crop name, predicted price, prediction date,
the three deterministic factors (seasonal demand, price trend, market
volatility) and the recommendation; only the confidence and the
supply/demand pressure factors depend on the per-call random draws. -/
theorem C3_deterministic_core (env : Env) (p : Predictor) (c : String)
    (d : ℕ) (n1 n2 : Noise) :
    (predict_price env p c d n1).map deterministicPart
      = (predict_price env p c d n2).map deterministicPart :=
  predict_detPart_congr env p p c d n2 n1 rfl rfl rfl

/-- The clamp of the confidence keeps it inside [0.5, 0.95]. -/
theorem calcConfidence_bounds (n : ℕ) (x : ℚ) :
    0.5 ≤ calcConfidence n x ∧ calcConfidence n x ≤ 0.95 := by
  unfold calcConfidence
  exact ⟨le_max_left _ _, max_le (by norm_num) (min_le_left _ _)⟩

/-- The base confidence is a non-decreasing step function of the series
length. -/
theorem baseConfidence_mono {m n : ℕ} (h : m ≤ n) :
    baseConfidence m ≤ baseConfidence n := by
  unfold baseConfidence
  split_ifs <;> first | (exfalso; omega) | norm_num

/-- Claim C4: every successful predict call returns a confidence inside
[0.5, 0.95], and the underlying base confidence is monotonically
non-decreasing in the length of the historical series. -/
theorem C4_confidence_bounds_and_monotone
    (env : Env) (p : Predictor) (c : String) (d : ℕ) (noise : Noise)
    (pr : PricePrediction)
    (h : predict_price env p c d noise = .ok pr) :
    (0.5 ≤ pr.confidence ∧ pr.confidence ≤ 0.95) ∧
    ∀ m n : ℕ, m ≤ n → baseConfidence m ≤ baseConfidence n := by
  refine ⟨?_, fun m n hmn => baseConfidence_mono hmn⟩
  rcases hm : alookup c p.models with _ | model
  · simp only [predict_price, hm] at h
    exact Except.noConfusion h
  · rcases hh : alookup c p.historical with _ | series
    · simp only [predict_price, hm, hh] at h
      exact Except.noConfusion h
    · rcases hsc : alookup c p.scalers with _ | scaler
      · simp only [predict_price, hm, hh, hsc] at h
        exact Except.noConfusion h
      · rw [predict_price_eq_ok env p c d noise model series scaler hm hh hsc]
          at h
        obtain rfl := (Except.ok.inj h)
        exact calcConfidence_bounds series.length noise.confNoise

/-- Witness for C4 at a concrete trained commodity. -/
theorem C4_witness :
    ∃ pr, predict_price env0 pW ("Rice") 5 noiseA = .ok pr ∧
      (0.5 ≤ pr.confidence ∧ pr.confidence ≤ 0.95) := by
  obtain ⟨pr, hpr⟩ : ∃ pr, predict_price env0 pW ("Rice") 5 noiseA = .ok pr :=
    ⟨_, predict_price_eq_ok env0 pW ("Rice") 5 noiseA mHead series31
      scalerId rfl rfl rfl⟩
  exact ⟨pr, hpr,
    (C4_confidence_bounds_and_monotone env0 pW ("Rice") 5 noiseA pr hpr).1⟩

/-- Claim C5 is false as stated: over the 31-point series whose price on
day t is t, taking target date 5, the price observed exactly one day
before the target date is 4, but the first lag component of the
prediction feature vector is the last observed price, 30 — the lag
features ignore the target date. -/
theorem C5_counterexample_lag_misaligned :
    some (predLagTriple series31).1 ≠ series31.get? (5 - 1) := by
  decide

/-- The tail of a long-enough series has exactly the requested length. -/
theorem tailN_length (n : ℕ) (xs : List ℚ) (h : n ≤ xs.length) :
    (tailN n xs).length = n := by
  simp only [tailN, List.length_drop]
  omega

/-- Negative indexing into the 30-point tail reaches the k-th element
counted from the end of the full series. -/
theorem ilocNeg_tailN (series : List ℚ) (k : ℕ) (hk : k ≤ 30)
    (h : 30 ≤ series.length) :
    ilocNeg (tailN 30 series) k = series.getD (series.length - k) 0 := by
  unfold ilocNeg
  rw [tailN_length 30 series h]
  unfold tailN
  rw [list_getD_drop]
  congr 1
  omega

/-- Claim C5 amended: the lag components occupy the same positions (the
9th to 11th entries) in the training rows and in the prediction vector,
but the prediction-time lags are the last, 7th-from-last and 30th-from-last
observed prices — the prices observed exactly 1, 7 and 30 days before the
day immediately following the last observation — irrespective of the
target date d. -/
theorem C5_lags_from_series_tail (env : Env) (series : List ℚ) (d i : ℕ)
    (h : 30 ≤ series.length) (_hi : rowValid series.length i) :
    predLagTriple series
      = (series.getD (series.length - 1) 0,
         series.getD (series.length - 7) 0,
         series.getD (series.length - 30) 0) ∧
    (predFeatures env series d).get? 8 = some (predLagTriple series).1 ∧
    (predFeatures env series d).get? 9 = some (predLagTriple series).2.1 ∧
    (predFeatures env series d).get? 10 = some (predLagTriple series).2.2 ∧
    (trainRow env series i).get? 8 = some (series.getD (i - 1) 0) ∧
    (trainRow env series i).get? 9 = some (series.getD (i - 7) 0) ∧
    (trainRow env series i).get? 10 = some (series.getD (i - 30) 0) := by
  have hlen : (tailN 30 series).length = 30 := tailN_length 30 series h
  refine ⟨?_, rfl, rfl, rfl, rfl, rfl, rfl⟩
  unfold predLagTriple price_lag_1 price_lag_7 price_lag_30
  rw [hlen]
  rw [if_pos (by norm_num : (0:ℕ) < 30)]
  rw [if_pos (by norm_num : (7:ℕ) ≤ 30)]
  rw [if_pos (by norm_num : (30:ℕ) ≤ 30)]
  rw [ilocNeg_tailN series 1 (by norm_num) h,
      ilocNeg_tailN series 7 (by norm_num) h,
      ilocNeg_tailN series 30 (by norm_num) h]

/-- Witness for the amended C5 at the concrete 31-point series, target
date 5 and training row 30. -/
theorem C5_witness :
    predLagTriple series31
      = (series31.getD (series31.length - 1) 0,
         series31.getD (series31.length - 7) 0,
         series31.getD (series31.length - 30) 0) ∧
    (predFeatures env0 series31 5).get? 8 = some (predLagTriple series31).1 ∧
    (predFeatures env0 series31 5).get? 9 = some (predLagTriple series31).2.1 ∧
    (predFeatures env0 series31 5).get? 10 = some (predLagTriple series31).2.2 ∧
    (trainRow env0 series31 30).get? 8 = some (series31.getD (30 - 1) 0) ∧
    (trainRow env0 series31 30).get? 9 = some (series31.getD (30 - 7) 0) ∧
    (trainRow env0 series31 30).get? 10 = some (series31.getD (30 - 30) 0) :=
  C5_lags_from_series_tail env0 series31 5 30 (by decide) (by decide)

/-- Claim C6 is false on the code: on scores where the random forest wins
the selection, the stored model was fitted on unscaled rows (only the
linear baseline is fitted on scaled rows), yet the prediction path
unconditionally scales the feature vector before invoking the stored
model.  Concretely: the stored model reads the first feature (the year,
2025 here), the add-one scaler shifts it, and the model is invoked on the
scaled value 2026 instead of the unscaled 2025 it was fitted against. -/
theorem C6_counterexample_tree_model_scaled_input :
    selectBest scoreTreeBest = some (.random_forest, 0.9) ∧
    fitOnScaled .random_forest = false ∧
    (predict_price env0 pScaledW ("Rice") 5 noiseA).map
        (fun pr => pr.predicted_price)
      = .ok (round2 (mHead.fn (scalerPlus1 (predFeatures env0 series31 5)))) ∧
    mHead.fn (scalerPlus1 (predFeatures env0 series31 5)) = 2026 ∧
    mHead.fn (predFeatures env0 series31 5) = 2025 := by
  refine ⟨by norm_num [selectBest, evalOrder, selectStep, scoreTreeBest],
    rfl, ?_, by norm_num [mHead, scalerPlus1, predFeatures, env0],
    by norm_num [mHead, predFeatures, env0]⟩
  rw [predict_price_eq_ok env0 pScaledW ("Rice") 5 noiseA mHead series31
        scalerPlus1 rfl rfl rfl]
  rfl

/-- Claim C6 amended: the prediction path always applies the stored scaler
to the feature vector before invoking the stored model, while training
fits only the linear baseline on scaled rows; hence the transformation
seen at prediction time matches the one seen at fit time exactly when the
selected candidate is the linear regression. -/
theorem C6_scaling_consistent_iff_linear
    (env : Env) (p : Predictor) (c : String) (d : ℕ) (noise : Noise)
    (model : MLModel) (series : List ℚ) (scaler : Scaler)
    (score : ModelKind → ℚ) (k : ModelKind) (s : ℚ)
    (hm : alookup c p.models = some model)
    (hh : alookup c p.historical = some series)
    (hsc : alookup c p.scalers = some scaler)
    (_hsel : selectBest score = some (k, s)) :
    (predict_price env p c d noise).map (fun pr => pr.predicted_price)
      = .ok (round2 (model.fn (scaler (predFeatures env series d)))) ∧
    (fitOnScaled k = true ↔ k = .linear_regression) := by
  constructor
  · rw [predict_price_eq_ok env p c d noise model series scaler hm hh hsc]
    rfl
  · cases k <;> simp [fitOnScaled]

/-- Witness for the amended C6 at a concrete registry and score table. -/
theorem C6_witness :
    (predict_price env0 pScaledW ("Rice") 5 noiseA).map
        (fun pr => pr.predicted_price)
      = .ok (round2 (mHead.fn (scalerPlus1 (predFeatures env0 series31 5)))) ∧
    (fitOnScaled .random_forest = true
      ↔ ModelKind.random_forest = .linear_regression) :=
  C6_scaling_consistent_iff_linear env0 pScaledW ("Rice") 5 noiseA mHead
    series31 scalerPlus1 scoreTreeBest .random_forest 0.9 rfl rfl rfl
    (by norm_num [selectBest, evalOrder, selectStep, scoreTreeBest])

/-- Claim C7: for a commodity with a trained model and any N ≥ 1, the
forecast has exactly N entries and the i-th entry (0-based) is a
successful prediction dated now + i + 1 — the dates start tomorrow,
strictly increase, and are consecutive one day apart. -/
theorem C7_forecast_dates
    (env : Env) (p : Predictor) (c : String) (model : MLModel)
    (series : List ℚ) (scaler : Scaler) (now days : ℕ) (noises : ℕ → Noise)
    (hm : alookup c p.models = some model)
    (hh : alookup c p.historical = some series)
    (hsc : alookup c p.scalers = some scaler)
    (_hdays : 1 ≤ days) :
    (get_price_forecast env p c days now noises).length = days ∧
    ∀ i, i < days →
      ∃ pr, (get_price_forecast env p c days now noises).get? i
          = some (.ok pr) ∧ pr.prediction_date = now + i + 1 := by
  constructor
  · simp [get_price_forecast]
  · intro i hi
    have h1 : (get_price_forecast env p c days now noises).get? i
        = some (predict_price env p c (now + (i + 1)) (noises i)) := by
      unfold get_price_forecast
      rw [List.get?_eq_getElem?, List.getElem?_map, List.getElem?_range]
      · rfl
      · exact hi
    rw [predict_price_eq_ok env p c (now + (i + 1)) (noises i) model series
        scaler hm hh hsc] at h1
    exact ⟨_, h1, rfl⟩

/-- Witness for C7: a 3-day forecast from day 100 over the concrete
trained predictor. -/
theorem C7_witness :
    (get_price_forecast env0 pW ("Rice") 3 100 noisesW).length = 3 ∧
    ∀ i, i < 3 →
      ∃ pr, (get_price_forecast env0 pW ("Rice") 3 100 noisesW).get? i
          = some (.ok pr) ∧ pr.prediction_date = 100 + i + 1 :=
  C7_forecast_dates env0 pW ("Rice") mHead series31 scalerId 100 3 noisesW
    rfl rfl rfl (by norm_num)

/-- Claim C8 is false as stated: save followed by load restores the
models and scalers exactly, yet the prediction made by the restored
system differs from the original one, because the confidence consumes a
fresh normal draw on every call (draws 1/100 and 0 here). -/
theorem C8_counterexample_roundtrip_confidence :
    predict_price env0 (load_models pFresh (save_models pW)) ("Rice") 5 noiseB
      ≠ predict_price env0 pW ("Rice") 5 noiseA := by
  intro hcontra
  rw [predict_price_eq_ok env0 (load_models pFresh (save_models pW))
        ("Rice") 5 noiseB mHead series31 scalerId rfl rfl rfl,
      predict_price_eq_ok env0 pW ("Rice") 5 noiseA mHead series31 scalerId
        rfl rfl rfl] at hcontra
  have h4 := congrArg PricePrediction.confidence (Except.ok.inj hcontra)
  have hlen : series31.length = 31 := rfl
  simp only [hlen, noiseA, noiseB] at h4
  norm_num [calcConfidence, baseConfidence, max_def, min_def] at h4

/-- Claim C8 amended: save then load restores the models and scalers maps
exactly, and — provided the loaded process holds the same historical
series — the restored system reproduces the deterministic part of every
prediction (crop name, predicted price, prediction date, the three
deterministic factors, recommendation); the confidence and the pressure
factors are fresh random draws on each call and need not coincide. -/
theorem C8_roundtrip_deterministic_core
    (env : Env) (p p0 : Predictor) (c : String) (d : ℕ) (n1 n2 : Noise)
    (h : p0.historical = p.historical) :
    (load_models p0 (save_models p)).models = p.models ∧
    (load_models p0 (save_models p)).scalers = p.scalers ∧
    (predict_price env (load_models p0 (save_models p)) c d n2).map
        deterministicPart
      = (predict_price env p c d n1).map deterministicPart := by
  refine ⟨rfl, rfl, ?_⟩
  exact predict_detPart_congr env p (load_models p0 (save_models p)) c d
    n1 n2 rfl h rfl

/-- Witness for the amended C8 at the concrete trained predictor and an
empty fresh registry. -/
theorem C8_witness :
    (load_models pFresh (save_models pW)).models = pW.models ∧
    (load_models pFresh (save_models pW)).scalers = pW.scalers ∧
    (predict_price env0 (load_models pFresh (save_models pW)) ("Rice") 5
        noiseB).map deterministicPart
      = (predict_price env0 pW ("Rice") 5 noiseA).map deterministicPart :=
  C8_roundtrip_deterministic_core env0 pW pFresh ("Rice") 5 noiseA noiseB rfl

/-- Claim C9 states intended behavior the code does not implement
(a code bug): loading the schema-mismatched artifact — it has a models
entry but no scalers entry — into a working registry raises no error at
all (the blanket except of load_models only logs, so the function returns
a Predictor, never a CorruptArtifact failure) and partially overwrites the
registry: the models map is replaced by the artifact content while the
old scalers map survives. -/
theorem C9_load_partial_overwrite_no_error :
    (load_models pRegW badArtifact).models = [(("Rice"), mHead)] ∧
    (load_models pRegW badArtifact).models ≠ pRegW.models ∧
    (load_models pRegW badArtifact).scalers = pRegW.scalers := by
  refine ⟨rfl, ?_, rfl⟩
  exact List.cons_ne_nil _ _

/-- Claim C10: appending a price observation only extends the database
table; the in-memory historical series, model registry and scaler
registry are untouched, so every subsequent predict and forecast result
is unchanged. -/
theorem C10_add_price_data_frame
    (env : Env) (p : Predictor) (pd : PriceData) (c : String) (d : ℕ)
    (noise : Noise) (days now : ℕ) (noises : ℕ → Noise) :
    (add_price_data p pd).historical = p.historical ∧
    (add_price_data p pd).models = p.models ∧
    (add_price_data p pd).scalers = p.scalers ∧
    predict_price env (add_price_data p pd) c d noise
      = predict_price env p c d noise ∧
    get_price_forecast env (add_price_data p pd) c days now noises
      = get_price_forecast env p c days now noises :=
  ⟨rfl, rfl, rfl, rfl, rfl⟩
